import Mathlib

/-!
Verification development for the Chess960 (Fischer Random Chess) engine in
`src/js/chess.js`.  The JavaScript `Chess` class is shallowly embedded here:
the mutable instance becomes an explicit `GameState` record, every method
becomes a pure function on that record, and each claim about the engine is
stated and settled as a theorem about these functions.

Conventions of the embedding:
* Board coordinates are `Int` (JS numbers; move arithmetic can go negative
  or past 7, exactly as in the source).
* The board is the visible 8×8 grid, a list of 8 rows of 8 optional pieces.
  `boardGet`/`boardSet` return `none` / act as the identity outside rows
  0–7 and columns 0–7, matching JS reads of out-of-range array indices
  (`undefined`, which the source code treats like an empty square) and the
  fact that a JS write at index 8 or -1 stores the value outside the 8×8
  grid that every in-range read consults.
* `Math.random()`-driven choices are modelled by explicit index parameters:
  `floor(Math.random() * positions.length)` is an arbitrary natural number
  strictly below `positions.length`, supplied by the caller.
-/

namespace Chess960

inductive PieceType where
  | king | queen | rook | bishop | knight | pawn
deriving DecidableEq, Repr

inductive Color where
  | white | black
deriving DecidableEq, Repr

def Color.opposite : Color → Color
  | .white => .black
  | .black => .white

structure Piece where
  type : PieceType
  color : Color
deriving DecidableEq, Repr

abbrev Board := List (List (Option Piece))

def emptyBoard : Board := List.replicate 8 (List.replicate 8 none)

/-- `this.board[row][col]` (an out-of-range read yields `undefined`,
which the source only ever treats as an empty square). -/
def boardGet (b : Board) (row col : Int) : Option Piece :=
  if 0 ≤ row ∧ row < 8 ∧ 0 ≤ col ∧ col < 8 then
    (b.getD row.toNat []).getD col.toNat none
  else none

/-- `this.board[row][col] = v`; a write outside the 8×8 grid does not
affect any in-range square (in JS it lands at an out-of-range array index
that in-range reads never see). -/
def boardSet (b : Board) (row col : Int) (v : Option Piece) : Board :=
  if 0 ≤ row ∧ row < 8 ∧ 0 ≤ col ∧ col < 8 then
    b.set row.toNat ((b.getD row.toNat []).set col.toNat v)
  else b

/-- `isWithinBoard(row, col)`. -/
def isWithinBoard (row col : Int) : Bool :=
  0 ≤ row && row < 8 && 0 ≤ col && col < 8

/-- All 64 squares in row-major order, mirroring the nested
`for (r...) for (c...)` scans of the source. -/
def allSquares : List (Int × Int) :=
  (List.range 8).flatMap (fun r => (List.range 8).map (fun c => ((r : Int), (c : Int))))

structure CRights where
  kingSide : Bool
  queenSide : Bool
deriving DecidableEq, Repr

/-- `this.castlingRights` with its `w` and `b` sub-objects. -/
structure CastlingRights where
  w : CRights
  b : CRights
deriving DecidableEq, Repr

def CastlingRights.forColor (cr : CastlingRights) : Color → CRights
  | .white => cr.w
  | .black => cr.b

def CastlingRights.setColor (cr : CastlingRights) : Color → CRights → CastlingRights
  | .white, r => { cr with w := r }
  | .black, r => { cr with b := r }

/-- `moveEntry` as pushed onto `this.moveHistory`. -/
structure MoveEntry where
  piece : Piece
  fromSq : Int × Int
  toSq : Int × Int
  captured : Option Piece
  castling : Option ((Int × Int) × (Int × Int))
  enPassant : Option (Int × Int)
  promotion : Option PieceType
deriving DecidableEq, Repr

/-- The mutable fields of the JS `Chess` instance. -/
structure GameState where
  board : Board
  currentPlayer : Color
  moveHistory : List MoveEntry
  gameOver : Bool
  gameResult : Option String
  startPosition : Option (List (Option PieceType))
  castlingRights : CastlingRights
  enPassantTarget : Option (Int × Int)
  halfMoveClock : Int
  fullMoveNumber : Int
deriving DecidableEq, Repr

/-! ## Pseudo-legal move generation -/

def knightOffsets : List (Int × Int) :=
  [(-2, -1), (-2, 1), (-1, -2), (-1, 2), (1, -2), (1, 2), (2, -1), (2, 1)]

def kingDirections : List (Int × Int) :=
  [(-1, -1), (-1, 0), (-1, 1), (0, -1), (0, 1), (1, -1), (1, 0), (1, 1)]

def bishopDirections : List (Int × Int) := [(-1, -1), (-1, 1), (1, -1), (1, 1)]

def rookDirections : List (Int × Int) := [(-1, 0), (0, -1), (0, 1), (1, 0)]

/-- `getKnightMoves`: the 8 jumps, onto empty or enemy-occupied squares. -/
def getKnightMoves (b : Board) (row col : Int) (pc : Color) : List (Int × Int) :=
  knightOffsets.filterMap (fun d =>
    let newRow := row + d.1
    let newCol := col + d.2
    if isWithinBoard newRow newCol then
      match boardGet b newRow newCol with
      | none => some (newRow, newCol)
      | some target => if target.color ≠ pc then some (newRow, newCol) else none
    else none)

/-- One ray of `getSlidingMoves`; the fuel (8) exceeds any possible ray
length on an 8×8 board, so the recursion matches the unbounded JS loop. -/
def slideRay (b : Board) (pc : Color) (dr dc : Int) : Nat → Int → Int → List (Int × Int)
  | 0, _, _ => []
  | fuel + 1, r, c =>
    if isWithinBoard r c then
      match boardGet b r c with
      | none => (r, c) :: slideRay b pc dr dc fuel (r + dr) (c + dc)
      | some target => if target.color ≠ pc then [(r, c)] else []
    else []

/-- `getSlidingMoves`. -/
def getSlidingMoves (b : Board) (row col : Int) (pc : Color)
    (dirs : List (Int × Int)) : List (Int × Int) :=
  dirs.flatMap (fun d => slideRay b pc d.1 d.2 8 (row + d.1) (col + d.2))

def getBishopMoves (b : Board) (row col : Int) (pc : Color) : List (Int × Int) :=
  getSlidingMoves b row col pc bishopDirections

def getRookMoves (b : Board) (row col : Int) (pc : Color) : List (Int × Int) :=
  getSlidingMoves b row col pc rookDirections

def queenDirections : List (Int × Int) :=
  [(-1, -1), (-1, 0), (-1, 1), (0, -1), (0, 1), (1, -1), (1, 0), (1, 1)]

def getQueenMoves (b : Board) (row col : Int) (pc : Color) : List (Int × Int) :=
  getSlidingMoves b row col pc queenDirections

/-- `getPawnMoves`: forward step, double step from the start row, diagonal
captures, and the en-passant capture. -/
def getPawnMoves (b : Board) (row col : Int) (p : Piece)
    (ep : Option (Int × Int)) : List (Int × Int) :=
  let direction : Int := if p.color = .white then -1 else 1
  let forward :=
    if isWithinBoard (row + direction) col ∧ boardGet b (row + direction) col = none then
      let startRow : Int := if p.color = .white then 6 else 1
      if row = startRow ∧ boardGet b (row + 2 * direction) col = none then
        [(row + direction, col), (row + 2 * direction, col)]
      else [(row + direction, col)]
    else []
  let captures := ([-1, 1] : List Int).filterMap (fun offset =>
    let newCol := col + offset
    if isWithinBoard (row + direction) newCol then
      match boardGet b (row + direction) newCol with
      | some target => if target.color ≠ p.color then some (row + direction, newCol) else none
      | none => none
    else none)
  let epMoves :=
    match ep with
    | some (epRow, epCol) =>
      if row = (if p.color = .white then (3 : Int) else 4) ∧
          (col - epCol = 1 ∨ epCol - col = 1) ∧ epRow = row + direction then
        [(epRow, epCol)]
      else []
    | none => []
  forward ++ captures ++ epMoves

/-! ## Attack detection -/

/-- The 8 king-adjacent squares kept on the board, as pushed (without any
occupancy or safety filter) by the `KING` case of `isSquareUnderAttack`. -/
def kingBasicSquares (row col : Int) : List (Int × Int) :=
  kingDirections.filterMap (fun d =>
    let newRow := row + d.1
    let newCol := col + d.2
    if isWithinBoard newRow newCol then some (newRow, newCol) else none)

/-- `isSquareUnderAttack(row, col, defendingColor)`: scan the whole board
for pieces of the attacking color whose move pattern covers the square. -/
def isSquareUnderAttack (b : Board) (row col : Int) (defendingColor : Color) : Bool :=
  let attackingColor := defendingColor.opposite
  allSquares.any (fun rc =>
    match boardGet b rc.1 rc.2 with
    | none => false
    | some p =>
      if p.color = attackingColor then
        match p.type with
        | .pawn =>
          let direction : Int := if p.color = .white then -1 else 1
          (rc.1 + direction == row) && (rc.2 - 1 == col || rc.2 + 1 == col)
        | .knight => (getKnightMoves b rc.1 rc.2 p.color).any (fun m => m == (row, col))
        | .bishop => (getBishopMoves b rc.1 rc.2 p.color).any (fun m => m == (row, col))
        | .rook => (getRookMoves b rc.1 rc.2 p.color).any (fun m => m == (row, col))
        | .queen => (getQueenMoves b rc.1 rc.2 p.color).any (fun m => m == (row, col))
        | .king => (kingBasicSquares rc.1 rc.2).any (fun m => m == (row, col))
      else false)

/-- The king search of `isInCheck`: first matching square in row-major
order, `(-1, -1)` when the king is absent from the 8×8 grid. -/
def findKing (b : Board) (color : Color) : Int × Int :=
  match allSquares.find? (fun rc =>
      match boardGet b rc.1 rc.2 with
      | some p => p.type == PieceType.king && p.color == color
      | none => false) with
  | some rc => rc
  | none => (-1, -1)

/-- `isInCheck(color)`. -/
def isInCheck (b : Board) (color : Color) : Bool :=
  let k := findKing b color
  isSquareUnderAttack b k.1 k.2 color

/-! ## King moves and castling -/

/-- `a, a+1, ..., b-1` (empty when `b ≤ a`). -/
def intRangeAsc (a b : Int) : List Int :=
  (List.range (b - a).toNat).map (fun i => a + (i : Int))

/-- `a, a-1, ..., 0` (empty when `a < 0`), the downward rook scan of the
queen-side castling branch of `makeMove`. -/
def intRangeDesc (a : Int) : List Int :=
  (List.range (a + 1).toNat).map (fun i => a - (i : Int))

/-- The files strictly between `a` and `b` (for `a < b`). -/
def betweenCols (a b : Int) : List Int := intRangeAsc (a + 1) b

/-- The single `for i = 0..7` rook scan of `getKingMoves`: king-side rook =
first friendly rook right of the king, queen-side rook = last friendly rook
left of the king; `-1` when absent. -/
def findCastlingRooks (b : Board) (rank : Int) (pc : Color) (kingStartCol : Int) : Int × Int :=
  (List.range 8).foldl (fun acc i =>
    let i : Int := (i : Int)
    match boardGet b rank i with
    | some p =>
      if p.type = PieceType.rook ∧ p.color = pc then
        if i > kingStartCol ∧ acc.1 = -1 then (i, acc.2)
        else if i < kingStartCol then (acc.1, i)
        else acc
      else acc
    | none => acc) (-1, -1)

/-- The `canCastle` loop body: every square strictly between the king and
the rook must be empty and not under attack. -/
def castlePathClear (b : Board) (rank : Int) (pc : Color) (cols : List Int) : Bool :=
  cols.all (fun i => (boardGet b rank i == none) && !(isSquareUnderAttack b rank i pc))

/-- The back rank of a color (where its castling happens). -/
def castleRank (c : Color) : Int := if c = Color.white then 7 else 0

/-- The 8 adjacent king moves: on-board, not own-occupied, not attacked. -/
def kingNormalMoves (b : Board) (row col : Int) (p : Piece) : List (Int × Int) :=
  kingDirections.filterMap (fun d =>
    let newRow := row + d.1
    let newCol := col + d.2
    if isWithinBoard newRow newCol then
      match boardGet b newRow newCol with
      | none =>
        if isSquareUnderAttack b newRow newCol p.color then none else some (newRow, newCol)
      | some target =>
        if target.color ≠ p.color ∧ ¬ isSquareUnderAttack b newRow newCol p.color then
          some (newRow, newCol)
        else none
    else none)

/-- The king-side castling push of `getKingMoves`: requires the rights
flag, a rook right of the king, and every file strictly between king and
rook empty and unattacked; the destination is `kingStartCol + 2`. -/
def kingSideCastle (b : Board) (rights : CastlingRights) (col : Int) (p : Piece) :
    List (Int × Int) :=
  if (rights.forColor p.color).kingSide ∧
      (findCastlingRooks b (castleRank p.color) p.color col).1 ≠ -1 ∧
      castlePathClear b (castleRank p.color) p.color
        (betweenCols col (findCastlingRooks b (castleRank p.color) p.color col).1) then
    [(castleRank p.color, col + 2)]
  else []

/-- The queen-side castling push: destination `kingStartCol - 2`. -/
def queenSideCastle (b : Board) (rights : CastlingRights) (col : Int) (p : Piece) :
    List (Int × Int) :=
  if (rights.forColor p.color).queenSide ∧
      (findCastlingRooks b (castleRank p.color) p.color col).2 ≠ -1 ∧
      castlePathClear b (castleRank p.color) p.color
        (betweenCols (findCastlingRooks b (castleRank p.color) p.color col).2 col) then
    [(castleRank p.color, col - 2)]
  else []

/-- The castling block of `getKingMoves`, guarded by the king not being in
check. -/
def kingCastleMoves (b : Board) (rights : CastlingRights) (col : Int) (p : Piece) :
    List (Int × Int) :=
  if isInCheck b p.color then []
  else kingSideCastle b rights col p ++ queenSideCastle b rights col p

/-- `getKingMoves`: the 8 adjacent squares (not own-occupied, not attacked)
plus the two Chess960 castling pushes. -/
def getKingMoves (b : Board) (rights : CastlingRights) (row col : Int) (p : Piece) :
    List (Int × Int) :=
  kingNormalMoves b row col p ++ kingCastleMoves b rights col p

/-! ## Legal move generation -/

/-- The `switch (piece.type)` dispatch of `getValidMoves`. -/
def pseudoMoves (b : Board) (rights : CastlingRights) (ep : Option (Int × Int))
    (row col : Int) (p : Piece) : List (Int × Int) :=
  match p.type with
  | .pawn => getPawnMoves b row col p ep
  | .knight => getKnightMoves b row col p.color
  | .bishop => getBishopMoves b row col p.color
  | .rook => getRookMoves b row col p.color
  | .queen => getQueenMoves b row col p.color
  | .king => getKingMoves b rights row col p

/-- `getValidMoves(row, col)`: pseudo-legal moves filtered by provisionally
applying each one (with en-passant pawn removal, but with no castling rook
relocation) and rejecting it if the mover's own king is then in check. -/
def getValidMoves (b : Board) (cur : Color) (rights : CastlingRights)
    (ep : Option (Int × Int)) (row col : Int) : List (Int × Int) :=
  match boardGet b row col with
  | none => []
  | some p =>
    if p.color ≠ cur then []
    else
      (pseudoMoves b rights ep row col p).filter (fun m =>
        let capturedPawnPos : Option (Int × Int) :=
          if p.type = PieceType.pawn ∧ ep = some m then some (row, m.2) else none
        let b1 := boardSet (boardSet b m.1 m.2 (some p)) row col none
        let b2 :=
          match capturedPawnPos with
          | some q => boardSet b1 q.1 q.2 none
          | none => b1
        !(isInCheck b2 p.color))

/-- `getValidMoves` as the JS method reads it off the instance fields. -/
def getValidMovesS (s : GameState) (row col : Int) : List (Int × Int) :=
  getValidMoves s.board s.currentPlayer s.castlingRights s.enPassantTarget row col

/-- `hasLegalMoves(color)`. -/
def hasLegalMoves (b : Board) (cur : Color) (rights : CastlingRights)
    (ep : Option (Int × Int)) (color : Color) : Bool :=
  allSquares.any (fun rc =>
    match boardGet b rc.1 rc.2 with
    | some p => p.color == color && !(getValidMoves b cur rights ep rc.1 rc.2).isEmpty
    | none => false)

/-- `isInCheckmate(color)`. -/
def isInCheckmate (b : Board) (cur : Color) (rights : CastlingRights)
    (ep : Option (Int × Int)) (color : Color) : Bool :=
  isInCheck b color && !(hasLegalMoves b cur rights ep color)

/-- `isInStalemate(color)`. -/
def isInStalemate (b : Board) (cur : Color) (rights : CastlingRights)
    (ep : Option (Int × Int)) (color : Color) : Bool :=
  !(isInCheck b color) && !(hasLegalMoves b cur rights ep color)

def isInCheckmateS (s : GameState) (color : Color) : Bool :=
  isInCheckmate s.board s.currentPlayer s.castlingRights s.enPassantTarget color

def isInStalemateS (s : GameState) (color : Color) : Bool :=
  isInStalemate s.board s.currentPlayer s.castlingRights s.enPassantTarget color

/-- `checkGameEnd()`: checkmate, then stalemate, then the fifty-move rule,
evaluated for the side to move. -/
def checkGameEnd (s : GameState) : GameState :=
  if isInCheckmateS s s.currentPlayer then
    { s with gameOver := true,
             gameResult := some (if s.currentPlayer = .white then "Black wins" else "White wins") }
  else if isInStalemateS s s.currentPlayer then
    { s with gameOver := true, gameResult := some "Stalemate" }
  else if 100 ≤ s.halfMoveClock then
    { s with gameOver := true, gameResult := some "Draw by fifty-move rule" }
  else s

/-! ## Move application -/

/-- Net effect of the `if (piece.type === PAWN) { ... } else { ... }` block
on the en-passant target: set to the passed-over square on a two-square
pawn advance, cleared otherwise. -/
def nextEnPassant (piece : Piece) (fromRow fromCol toRow : Int) : Option (Int × Int) :=
  if piece.type = PieceType.pawn then
    if (toRow - fromRow).natAbs = 2 then some ((fromRow + toRow) / 2, fromCol) else none
  else none

/-- Net effect of the same block on the half-move clock: reset on a pawn
move or a capture, incremented otherwise. -/
def nextHalfMove (piece : Piece) (capturedPiece : Option Piece) (old : Int) : Int :=
  if piece.type = PieceType.pawn then 0
  else if capturedPiece.isSome then 0
  else old + 1

/-- Board/record effects of the pawn block: en-passant pawn removal and
auto-promotion to queen, with the recorded `enPassant`/`promotion` fields. -/
def pawnBoardEffects (piece : Piece) (ep : Option (Int × Int))
    (fromRow toRow toCol : Int) (b2 : Board) :
    Board × Option (Int × Int) × Option PieceType :=
  if piece.type = PieceType.pawn then
    let step1 : Board × Option (Int × Int) :=
      match ep with
      | some t =>
        if toRow = t.1 ∧ toCol = t.2 then
          (boardSet b2 fromRow toCol none, some (fromRow, toCol))
        else (b2, none)
      | none => (b2, none)
    if toRow = 0 ∨ toRow = 7 then
      (boardSet step1.1 toRow toCol (some ⟨PieceType.queen, piece.color⟩), step1.2,
        some PieceType.queen)
    else (step1.1, step1.2, none)
  else (b2, none, none)

/-- The first friendly rook strictly right of the king's starting file, as
scanned by the king-side castling branch of `makeMove`; `-1` stands for the
JS `undefined` that an unsuccessful scan leaves behind (reads at column
`-1` yield `undefined`/`none` exactly as JS reads at `board[rank][undefined]`). -/
def rookScanRight (b : Board) (rank fromCol : Int) (pc : Color) : Int :=
  match (intRangeAsc (fromCol + 1) 8).find? (fun i =>
      match boardGet b rank i with
      | some p => p.type == PieceType.rook && p.color == pc
      | none => false) with
  | some i => i
  | none => -1

/-- The first friendly rook strictly left of the king's starting file
(downward scan), `-1` for `undefined`. -/
def rookScanLeft (b : Board) (rank fromCol : Int) (pc : Color) : Int :=
  match (intRangeDesc (fromCol - 1)).find? (fun i =>
      match boardGet b rank i with
      | some p => p.type == PieceType.rook && p.color == pc
      | none => false) with
  | some i => i
  | none => -1

/-- The castling block of `makeMove`: when a king moved two files, find the
rook on the corresponding side and relocate it (destination write first,
then the source cleared — so a rook whose source and destination coincide
is erased, exactly as in the source). -/
def castleBoardEffects (piece : Piece) (fromCol toCol : Int) (b : Board) :
    Board × Option ((Int × Int) × (Int × Int)) :=
  if piece.type = PieceType.king ∧ (toCol - fromCol).natAbs = 2 then
    let rank : Int := if piece.color = .white then 7 else 0
    let isKingSide := fromCol < toCol
    let rookFromCol := if isKingSide then rookScanRight b rank fromCol piece.color
                       else rookScanLeft b rank fromCol piece.color
    let rookToCol := if isKingSide then fromCol + 1 else fromCol - 1
    let rookPiece := boardGet b rank rookFromCol
    let b' := boardSet (boardSet b rank rookToCol rookPiece) rank rookFromCol none
    (b', some ((rank, rookFromCol), (rank, rookToCol)))
  else (b, none)

/-- First king of `color` on `rank` (the `kingCol` scan of the castling-
rights update), `-1` when absent. -/
def findKingColOnRank (b : Board) (rank : Int) (color : Color) : Int :=
  match (intRangeAsc 0 8).find? (fun i =>
      match boardGet b rank i with
      | some p => p.type == PieceType.king && p.color == color
      | none => false) with
  | some i => i
  | none => -1

/-- The `rights.kingSide = false; rights.queenSide = false` of a king move. -/
def rightsAfterKingMove (piece : Piece) (cr : CastlingRights) : CastlingRights :=
  if piece.type = PieceType.king then cr.setColor piece.color ⟨false, false⟩ else cr

/-- The rook-move / rook-capture castling-rights update of `makeMove`.
Note that it keys on `fromRow` (not the rook's own square) and on the
king's current file on the post-move board `b`. -/
def rightsAfterRookEvent (piece : Piece) (capturedPiece : Option Piece)
    (fromRow fromCol toCol : Int) (b : Board) (cr : CastlingRights) : CastlingRights :=
  let isRookEvent : Bool :=
    (piece.type == PieceType.rook) ||
      (match capturedPiece with
       | some cp => cp.type == PieceType.rook
       | none => false)
  if isRookEvent then
    let rank := fromRow
    let col := if capturedPiece.isSome then toCol else fromCol
    let color := match capturedPiece with | some cp => cp.color | none => piece.color
    if rank = (if color = .white then (7 : Int) else 0) then
      let kingCol := findKingColOnRank b rank color
      if kingCol ≠ -1 then
        let r := cr.forColor color
        if col > kingCol then cr.setColor color ⟨false, r.queenSide⟩
        else cr.setColor color ⟨r.kingSide, false⟩
      else cr
    else cr
  else cr

/-- Everything `makeMove` does after its legality checks and before the
final `checkGameEnd()` call, as one pure state transformer. -/
def applyMove (s : GameState) (piece : Piece) (fromRow fromCol toRow toCol : Int) : GameState :=
  let capturedPiece := boardGet s.board toRow toCol
  let b2 := boardSet (boardSet s.board toRow toCol (some piece)) fromRow fromCol none
  let pawnFx := pawnBoardEffects piece s.enPassantTarget fromRow toRow toCol b2
  let castleFx := castleBoardEffects piece fromCol toCol pawnFx.1
  let rights2 := rightsAfterRookEvent piece capturedPiece fromRow fromCol toCol castleFx.1
    (rightsAfterKingMove piece s.castlingRights)
  let entry : MoveEntry :=
    { piece := piece, fromSq := (fromRow, fromCol), toSq := (toRow, toCol),
      captured := capturedPiece, castling := castleFx.2,
      enPassant := pawnFx.2.1, promotion := pawnFx.2.2 }
  { s with
    board := castleFx.1,
    castlingRights := rights2,
    enPassantTarget := nextEnPassant piece fromRow fromCol toRow,
    halfMoveClock := nextHalfMove piece capturedPiece s.halfMoveClock,
    fullMoveNumber :=
      if s.currentPlayer = .black then s.fullMoveNumber + 1 else s.fullMoveNumber,
    moveHistory := s.moveHistory ++ [entry],
    currentPlayer := s.currentPlayer.opposite }

/-- `makeMove(fromRow, fromCol, toRow, toCol)`: the boolean result together
with the (possibly unchanged) state. -/
def makeMove (s : GameState) (fromRow fromCol toRow toCol : Int) : Bool × GameState :=
  match boardGet s.board fromRow fromCol with
  | none => (false, s)
  | some piece =>
    if piece.color ≠ s.currentPlayer then (false, s)
    else if (toRow, toCol) ∈ getValidMovesS s fromRow fromCol then
      (true, checkGameEnd (applyMove s piece fromRow fromCol toRow toCol))
    else (false, s)

/-! ## FEN generation -/

/-- A piece's FEN letter: lowercase piece letter, uppercased for White. -/
def pieceFenChar (p : Piece) : String :=
  let c := match p.type with
    | .king => "k" | .queen => "q" | .rook => "r"
    | .bishop => "b" | .knight => "n" | .pawn => "p"
  if p.color = .white then c.toUpper else c

/-- The inner file loop of `generateFEN` for one rank: pieces interleaved
with digit runs of empty squares, flushed at rank end. -/
def rankFEN (b : Board) (rank : Int) : String :=
  let step := (List.range 8).foldl (fun (acc : String × Nat) file =>
      match boardGet b rank (file : Int) with
      | none => (acc.1, acc.2 + 1)
      | some p =>
        ((if acc.2 > 0 then acc.1 ++ toString acc.2 else acc.1) ++ pieceFenChar p, 0))
    ("", 0)
  if step.2 > 0 then step.1 ++ toString step.2 else step.1

/-- `generateFEN()`.  The en-passant field concatenates the JS array
`[row, col]` into the string, i.e. `"row,col"`. -/
def generateFEN (s : GameState) : String :=
  let boardStr := (List.range 8).foldl (fun acc rank =>
      acc ++ rankFEN s.board (rank : Int) ++ (if rank < 7 then "/" else "")) ""
  let castling :=
    (if s.castlingRights.w.kingSide then "K" else "") ++
    (if s.castlingRights.w.queenSide then "Q" else "") ++
    (if s.castlingRights.b.kingSide then "k" else "") ++
    (if s.castlingRights.b.queenSide then "q" else "")
  boardStr ++ " " ++ (if s.currentPlayer = .white then "w" else "b") ++ " " ++
    (if castling = "" then "-" else castling) ++ " " ++
    (match s.enPassantTarget with
     | some t => toString t.1 ++ "," ++ toString t.2
     | none => "-") ++ " " ++
    toString s.halfMoveClock ++ " " ++ toString s.fullMoveNumber

/-! ## Chess960 start-position generation

`Math.floor(Math.random() * positions.length)` is an arbitrary index
strictly below `positions.length`; each such draw is modelled by an
explicit `Nat` parameter, with the bound supplied as a hypothesis where a
theorem quantifies over all draws. -/

/-- `getRandomPosition(positions)` with the random index made explicit. -/
def getRandomPosition (positions : List Nat) (r : Nat) : Nat :=
  positions.getD r 0

/-- The `emptyPositions` collection loop. -/
def empties (bk : List (Option PieceType)) : List Nat :=
  (List.range 8).filter (fun i => bk.getD i none == none)

/-- `getRandomEmptyPosition(backrank)` with the random index explicit. -/
def getRandomEmptyPosition (bk : List (Option PieceType)) (r : Nat) : Nat :=
  getRandomPosition (empties bk) r

/-- `generateChess960Position()`: bishops on a dark and a light file, then
queen and knights on random empty files, rooks on the outer two remaining
files and the king on the middle one. -/
def generateChess960Position (r1 r2 r3 r4 r5 : Nat) : List (Option PieceType) :=
  let backrank : List (Option PieceType) := List.replicate 8 none
  let bishopDarkPos := getRandomPosition [0, 2, 4, 6] r1
  let bishopLightPos := getRandomPosition [1, 3, 5, 7] r2
  let backrank := (backrank.set bishopDarkPos (some .bishop)).set bishopLightPos (some .bishop)
  let backrank := backrank.set (getRandomEmptyPosition backrank r3) (some .queen)
  let backrank := backrank.set (getRandomEmptyPosition backrank r4) (some .knight)
  let backrank := backrank.set (getRandomEmptyPosition backrank r5) (some .knight)
  let emptyPositions := empties backrank
  let backrank := backrank.set (emptyPositions.getD 0 0) (some .rook)
  let backrank := backrank.set (emptyPositions.getD 2 0) (some .rook)
  let backrank := backrank.set (emptyPositions.getD 1 0) (some .king)
  backrank

/-- The two placement loops of `initializeChess960()`, written by their
net effect on the cleared board: the loops write, for every column `i` of
the fresh board, the backrank piece `backrank[i]` of each color onto rows
7 (White) and 0 (Black) and a pawn of each color onto rows 6 (White) and
1 (Black); rows 2–5 stay empty. -/
def initBoardFromBackrank (bk : List (Option PieceType)) : Board :=
  [(List.range 8).map (fun i => (bk.getD i none).map (fun t => ⟨t, Color.black⟩)),
   List.replicate 8 (some ⟨PieceType.pawn, Color.black⟩),
   List.replicate 8 none,
   List.replicate 8 none,
   List.replicate 8 none,
   List.replicate 8 none,
   List.replicate 8 (some ⟨PieceType.pawn, Color.white⟩),
   (List.range 8).map (fun i => (bk.getD i none).map (fun t => ⟨t, Color.white⟩))]

/-- `initializeChess960()` (named `initChess960` here): reset every field,
generate a backrank and deal it to both sides with a full rank of pawns
each.  The JS method finally returns `generateFEN()`; the state itself is
what matters here. -/
def initChess960 (r1 r2 r3 r4 r5 : Nat) : GameState :=
  let bk := generateChess960Position r1 r2 r3 r4 r5
  { board := initBoardFromBackrank bk
    currentPlayer := .white
    moveHistory := []
    gameOver := false
    gameResult := none
    startPosition := some bk
    castlingRights := ⟨⟨true, true⟩, ⟨true, true⟩⟩
    enPassantTarget := none
    halfMoveClock := 0
    fullMoveNumber := 1 }

/-! ## Concrete positions and helpers used by the theorems -/

/-- Build a board from a placement list. -/
def mkBoard (l : List (Int × Int × Piece)) : Board :=
  l.foldl (fun b e => boardSet b e.1 e.2.1 (some e.2.2)) emptyBoard

/-- A fresh game state around a given board: White to move, full castling
rights, empty history and clocks, exactly as after the constructor. -/
def mkState (b : Board) : GameState :=
  { board := b
    currentPlayer := .white
    moveHistory := []
    gameOver := false
    gameResult := none
    startPosition := none
    castlingRights := ⟨⟨true, true⟩, ⟨true, true⟩⟩
    enPassantTarget := none
    halfMoveClock := 0
    fullMoveNumber := 1 }

/-- Number of pieces of a given color and type on the 8×8 grid. -/
def countPieces (b : Board) (c : Color) (t : PieceType) : Nat :=
  allSquares.countP (fun rc => boardGet b rc.1 rc.2 == some ⟨t, c⟩)

/-- Apply a list of `(fromRow, fromCol, toRow, toCol)` moves, recording
whether every single `makeMove` returned `true`. -/
def playChecked (s : GameState) (ms : List (Int × Int × Int × Int)) : Bool × GameState :=
  ms.foldl (fun acc m =>
    let r := makeMove acc.2 m.1 m.2.1 m.2.2.1 m.2.2.2
    (acc.1 && r.1, r.2)) (true, s)

/-- White king d1, white rook g1, black rook h1, black king a8; White to
move with castling rights intact.  King-side castling d1→f1 relocates the
rook g1→e1, unblocking the h1 rook's line to f1. -/
def c1State : GameState :=
  mkState (mkBoard
    [(7, 3, ⟨.king, .white⟩), (7, 6, ⟨.rook, .white⟩),
     (7, 7, ⟨.rook, .black⟩), (0, 0, ⟨.king, .black⟩)])

/-- White king f1, white rook g1, black rook g8, black king a8; White to
move.  The king-side castle f1→h1 passes through g1, which the g8 rook
attacks, and the strictly-between file range that the code checks is empty. -/
def c2State : GameState :=
  mkState (mkBoard
    [(7, 5, ⟨.king, .white⟩), (7, 6, ⟨.rook, .white⟩),
     (0, 6, ⟨.rook, .black⟩), (0, 0, ⟨.king, .black⟩)])

/-- The start position produced by `initChess960` when every random draw is
index 0: backrank B B Q N N R K R, king on file g with the king-side rook
on file h. -/
def bbqnnrkrStart : GameState := initChess960 0 0 0 0 0

/-- The start position with the classical backrank R N B Q K B N R
(random draw indices 1, 2, 2, 1, 2). -/
def classicalStart : GameState := initChess960 1 2 2 1 2

/-- White king e1, white rook h1, black king e8: a position where
king-side castling is available, for witnessing the castling theorem. -/
def castleReadyState : GameState :=
  mkState (mkBoard
    [(7, 4, ⟨.king, .white⟩), (7, 7, ⟨.rook, .white⟩), (0, 4, ⟨.king, .black⟩)])

/-- The empty-board state, for witnessing rejected moves. -/
def bareState : GameState := mkState emptyBoard

/-- Kings plus a white rook on g2: any rook move is legal and ends the
game in no way — a witness position for the terminal-evaluation theorem. -/
def rookEndgameState : GameState :=
  mkState (mkBoard
    [(7, 0, ⟨.king, .white⟩), (0, 7, ⟨.king, .black⟩), (6, 6, ⟨.rook, .white⟩)])

/-- Kings plus a white pawn on d2, whose double step witnesses the
en-passant-target theorem. -/
def pawnStartState : GameState :=
  mkState (mkBoard
    [(7, 0, ⟨.king, .white⟩), (0, 7, ⟨.king, .black⟩), (6, 3, ⟨.pawn, .white⟩)])

/-- The empty-board state with an en-passant target set, exposing the FEN
en-passant field. -/
def epFenState : GameState :=
  { bareState with enPassantTarget := some (5, 4) }

/-- The state after the rook move g2–g3 in `rookEndgameState`. -/
def c8After : GameState := (makeMove rookEndgameState 6 6 5 6).2

/-- The state after the pawn double step d2–d4 in `pawnStartState`. -/
def c9After : GameState := (makeMove pawnStartState 6 3 4 3).2

/-! ## Spec-side definitions (used only to state claims against the code) -/

/-- Claim C5's piece multiset: exactly 2 rooks, 2 knights, 2 bishops,
1 queen, 1 king on the backrank. -/
def backrankCounts (bk : List (Option PieceType)) : Prop :=
  bk.count (some .rook) = 2 ∧ bk.count (some .knight) = 2 ∧
  bk.count (some .bishop) = 2 ∧ bk.count (some .queen) = 1 ∧ bk.count (some .king) = 1

instance (bk : List (Option PieceType)) : Decidable (backrankCounts bk) := by
  unfold backrankCounts; infer_instance

/-- Claim C5: the two bishops stand on opposite-parity files. -/
def bishopsOppositeParity (bk : List (Option PieceType)) : Bool :=
  match (List.range 8).filter (fun i => bk.getD i none == some .bishop) with
  | [i, j] => (i + j) % 2 == 1
  | _ => false

/-- Claim C5: the king's file lies strictly between the two rooks' files. -/
def kingBetweenRooks (bk : List (Option PieceType)) : Bool :=
  match (List.range 8).filter (fun i => bk.getD i none == some .rook),
        (List.range 8).filter (fun i => bk.getD i none == some .king) with
  | [i, j], [k] => i < k && k < j
  | _, _ => false

/-- All backrank requirements of claim C5 in one pass: the piece counts,
opposite-parity bishops, and king strictly between the rooks. -/
def backrankOk (bk : List (Option PieceType)) : Bool :=
  (bk.count (some .rook) == 2) && (bk.count (some .knight) == 2) &&
  (bk.count (some .bishop) == 2) && (bk.count (some .queen) == 1) &&
  (bk.count (some .king) == 1) && bishopsOppositeParity bk && kingBetweenRooks bk

/-- Modelled from the spec wording of claim C7: a square in algebraic
notation is a file letter `a`–`h` followed by a rank digit `1`–`8`. -/
def isAlgebraicSquare (str : String) : Bool :=
  match str.toList with
  | [f, r] => 'a' ≤ f && f ≤ 'h' && '1' ≤ r && r ≤ '8'
  | _ => false

/-- Spec-side run-length encoding of one FEN rank (claim C7): digits for
maximal runs of empty squares, piece letters otherwise. -/
def fenRunAux : Nat → List (Option Piece) → String
  | k, [] => if k > 0 then toString k else ""
  | k, none :: rest => fenRunAux (k + 1) rest
  | k, some p :: rest => (if k > 0 then toString k else "") ++ pieceFenChar p ++ fenRunAux 0 rest

/-- The eight cells of one board row, left to right. -/
def rankCells (b : Board) (rank : Int) : List (Option Piece) :=
  (List.range 8).map (fun file => boardGet b rank (file : Int))

/-- Spec-side FEN encoding of one rank. -/
def rankFENSpec (b : Board) (rank : Int) : String :=
  fenRunAux 0 (rankCells b rank)

/-- Spec-side FEN field 2: `w` or `b` for the side to move. -/
def activeColorField (s : GameState) : String :=
  if s.currentPlayer = .white then "w" else "b"

/-- Spec-side FEN field 3: the subset of `KQkq` still available, `-` when
empty. -/
def castlingField (s : GameState) : String :=
  let sub :=
    (if s.castlingRights.w.kingSide then "K" else "") ++
    (if s.castlingRights.w.queenSide then "Q" else "") ++
    (if s.castlingRights.b.kingSide then "k" else "") ++
    (if s.castlingRights.b.queenSide then "q" else "")
  if sub = "" then "-" else sub

/-- Spec-side FEN field 4 as amended for claim C7: the en-passant target
as the JS array stringification `"row,col"`, or `-` when unset (the
original claim said algebraic notation; the code does not produce it). -/
def enPassantField (s : GameState) : String :=
  match s.enPassantTarget with
  | some t => toString t.1 ++ "," ++ toString t.2
  | none => "-"

/-! ## Claim C1 -/

/-- C1: claimed — every move returned by `getValidMoves`, applied through
`makeMove`, leaves the mover's king unattacked, including castling.
Refuted on the code: in `c1State` the castling move d1→f1 is returned by
`getValidMoves` (the legality filter simulates only the king relocation),
`makeMove` accepts it and moves the rook g1→e1, after which the mover's
own king on f1 is attacked by the h1 rook along the now-open first rank:
`isInCheck` for the mover is `true` immediately after the move. -/
theorem c1_castle_leaves_king_in_check :
    ((7 : Int), (5 : Int)) ∈ getValidMovesS c1State 7 3 ∧
    (makeMove c1State 7 3 7 5).1 = true ∧
    isInCheck (makeMove c1State 7 3 7 5).2.board Color.white = true := by
  decide

/-! ## Claim C3 -/

/-- C3: claimed — every position reachable from the initializer by
successful `makeMove` calls has exactly one king per color and no piece
off the board.  Refuted on the code: from the reachable start
`bbqnnrkrStart` (king g1, rook h1), `getKingMoves` pushes the castling
destination `kingStartCol + 2 = 8` with no bounds check, `makeMove`
accepts it, stores the white king at column 8 — outside the 8×8 grid —
and erases the h1 rook (the rook relocation writes the destination g1+1=h1
first and then clears the source h1).  The resulting reachable position
has zero white kings and one white rook on the board. -/
theorem c3_offboard_castle :
    ((7 : Int), (8 : Int)) ∈ getValidMovesS bbqnnrkrStart 7 6 ∧
    (makeMove bbqnnrkrStart 7 6 7 8).1 = true ∧
    countPieces (makeMove bbqnnrkrStart 7 6 7 8).2.board Color.white PieceType.king = 0 ∧
    countPieces (makeMove bbqnnrkrStart 7 6 7 8).2.board Color.white PieceType.rook = 1 := by
  decide

/-! ## Claim C4 -/

/-- From the classical start: 1.Nf3 a5 2.Ne5 a4 3.Ng6 a3, after which the
white knight on g6 can capture the untouched black king-side rook on h8. -/
def c4Prefix : List (Int × Int × Int × Int) :=
  [(7, 6, 5, 5), (1, 0, 3, 0), (5, 5, 3, 4), (3, 0, 4, 0), (3, 4, 2, 6), (4, 0, 5, 0)]

def c4PreCapture : GameState := (playChecked classicalStart c4Prefix).2

/-- C4: claimed — a rook-capture clears the captured side's corresponding
castling flag.  Refuted on the code: in the reachable position
`c4PreCapture` (black's rook still on its starting square h8, black's
rights intact), White's knight on g6 captures it, `makeMove` succeeds, yet
black's king-side castling flag is still `true` afterwards — the update
compares `fromRow` (the capturing knight's origin row, 2) with the
captured rook's home rank 0 and therefore never fires. -/
theorem c4_captured_rook_keeps_rights :
    (playChecked classicalStart c4Prefix).1 = true ∧
    boardGet c4PreCapture.board 0 7 = some ⟨PieceType.rook, Color.black⟩ ∧
    c4PreCapture.castlingRights.b = ⟨true, true⟩ ∧
    (makeMove c4PreCapture 2 6 0 7).1 = true ∧
    (makeMove c4PreCapture 2 6 0 7).2.moveHistory.getLast?.map MoveEntry.captured =
      some (some ⟨PieceType.rook, Color.black⟩) ∧
    (makeMove c4PreCapture 2 6 0 7).2.castlingRights.b.kingSide = true := by
  decide

/-! ## Claim C2 (counterexample part) -/

/-- C2 as stated is false: in `c2State` the king-side castling move f1→h1
is in the move set `getKingMoves` produces for the king (and even survives
the `getValidMoves` legality filter), although the square g1 that the king
passes through is attacked by the g8 rook — the code only tests the files
strictly between the king and the rook (here: none), not the king's path. -/
theorem c2_counterexample :
    ((7 : Int), (7 : Int)) ∈
      getKingMoves c2State.board c2State.castlingRights 7 5 ⟨PieceType.king, Color.white⟩ ∧
    ((7 : Int), (7 : Int)) ∈ getValidMovesS c2State 7 5 ∧
    isSquareUnderAttack c2State.board 7 6 Color.white = true ∧
    isInCheck c2State.board Color.white = false ∧
    c2State.castlingRights.w.kingSide = true := by
  decide

/-! ## Claim C10 -/

/-- One knight-shuttle cycle: Ng1–f3, Ng8–f6, Nf3–g1, Nf6–g8.  No pawn
move, no capture: four plies that leave the board unchanged and advance
the half-move clock by 4. -/
def cycleMoves : List (Int × Int × Int × Int) :=
  [((7 : Int), (6 : Int), (5 : Int), (5 : Int)), (0, 6, 2, 5), (5, 5, 7, 6), (2, 5, 0, 6)]

/-- The four history entries one shuttle cycle appends. -/
def cycleHistory : List MoveEntry :=
  [{ piece := ⟨.knight, .white⟩, fromSq := (7, 6), toSq := (5, 5),
     captured := none, castling := none, enPassant := none, promotion := none },
   { piece := ⟨.knight, .black⟩, fromSq := (0, 6), toSq := (2, 5),
     captured := none, castling := none, enPassant := none, promotion := none },
   { piece := ⟨.knight, .white⟩, fromSq := (5, 5), toSq := (7, 6),
     captured := none, castling := none, enPassant := none, promotion := none },
   { piece := ⟨.knight, .black⟩, fromSq := (2, 5), toSq := (0, 6),
     captured := none, castling := none, enPassant := none, promotion := none }]

/-- The position after `k` complete shuttle cycles from `classicalStart`
(for `k ≤ 24`): the board repeats, only the clocks and the history grow. -/
def shuttleState (k : Nat) : GameState :=
  { classicalStart with
    halfMoveClock := 4 * (k : Int),
    fullMoveNumber := 1 + 2 * (k : Int),
    moveHistory := (List.replicate k cycleHistory).flatten }

/-- The position after all 25 cycles (100 plies): the fifty-move rule has
fired on the 100th ply. -/
def s100def : GameState :=
  { classicalStart with
    halfMoveClock := 100,
    fullMoveNumber := 51,
    moveHistory := (List.replicate 25 cycleHistory).flatten,
    gameOver := true,
    gameResult := some "Draw by fifty-move rule" }

/-- 25 repetitions of the knight shuttle: 100 plies with no pawn move and
no capture. -/
def shuttleMoves : List (Int × Int × Int × Int) :=
  (List.replicate 25 cycleMoves).flatten

/-- Fool's-mate finish played after the game is already over: 51.f3 e5
52.g4 Qh4#. -/
def c10Finish : List (Int × Int × Int × Int) :=
  [(6, 5, 5, 5), (1, 4, 3, 4), (6, 6, 4, 6), (0, 3, 4, 7)]

/-- Shuttle cycle 1 of 25, evaluated on the code. -/
theorem shuttleSeg0 : playChecked classicalStart cycleMoves = (true, (shuttleState 1)) := by
  decide

/-- Shuttle cycle 2 of 25, evaluated on the code. -/
theorem shuttleSeg1 : playChecked (shuttleState 1) cycleMoves = (true, (shuttleState 2)) := by
  decide

/-- Shuttle cycle 3 of 25, evaluated on the code. -/
theorem shuttleSeg2 : playChecked (shuttleState 2) cycleMoves = (true, (shuttleState 3)) := by
  decide

/-- Shuttle cycle 4 of 25, evaluated on the code. -/
theorem shuttleSeg3 : playChecked (shuttleState 3) cycleMoves = (true, (shuttleState 4)) := by
  decide

/-- Shuttle cycle 5 of 25, evaluated on the code. -/
theorem shuttleSeg4 : playChecked (shuttleState 4) cycleMoves = (true, (shuttleState 5)) := by
  decide

/-- Shuttle cycle 6 of 25, evaluated on the code. -/
theorem shuttleSeg5 : playChecked (shuttleState 5) cycleMoves = (true, (shuttleState 6)) := by
  decide

/-- Shuttle cycle 7 of 25, evaluated on the code. -/
theorem shuttleSeg6 : playChecked (shuttleState 6) cycleMoves = (true, (shuttleState 7)) := by
  decide

/-- Shuttle cycle 8 of 25, evaluated on the code. -/
theorem shuttleSeg7 : playChecked (shuttleState 7) cycleMoves = (true, (shuttleState 8)) := by
  decide

/-- Shuttle cycle 9 of 25, evaluated on the code. -/
theorem shuttleSeg8 : playChecked (shuttleState 8) cycleMoves = (true, (shuttleState 9)) := by
  decide

/-- Shuttle cycle 10 of 25, evaluated on the code. -/
theorem shuttleSeg9 : playChecked (shuttleState 9) cycleMoves = (true, (shuttleState 10)) := by
  decide

/-- Shuttle cycle 11 of 25, evaluated on the code. -/
theorem shuttleSeg10 : playChecked (shuttleState 10) cycleMoves = (true, (shuttleState 11)) := by
  decide

/-- Shuttle cycle 12 of 25, evaluated on the code. -/
theorem shuttleSeg11 : playChecked (shuttleState 11) cycleMoves = (true, (shuttleState 12)) := by
  decide

/-- Shuttle cycle 13 of 25, evaluated on the code. -/
theorem shuttleSeg12 : playChecked (shuttleState 12) cycleMoves = (true, (shuttleState 13)) := by
  decide

/-- Shuttle cycle 14 of 25, evaluated on the code. -/
theorem shuttleSeg13 : playChecked (shuttleState 13) cycleMoves = (true, (shuttleState 14)) := by
  decide

/-- Shuttle cycle 15 of 25, evaluated on the code. -/
theorem shuttleSeg14 : playChecked (shuttleState 14) cycleMoves = (true, (shuttleState 15)) := by
  decide

/-- Shuttle cycle 16 of 25, evaluated on the code. -/
theorem shuttleSeg15 : playChecked (shuttleState 15) cycleMoves = (true, (shuttleState 16)) := by
  decide

/-- Shuttle cycle 17 of 25, evaluated on the code. -/
theorem shuttleSeg16 : playChecked (shuttleState 16) cycleMoves = (true, (shuttleState 17)) := by
  decide

/-- Shuttle cycle 18 of 25, evaluated on the code. -/
theorem shuttleSeg17 : playChecked (shuttleState 17) cycleMoves = (true, (shuttleState 18)) := by
  decide

/-- Shuttle cycle 19 of 25, evaluated on the code. -/
theorem shuttleSeg18 : playChecked (shuttleState 18) cycleMoves = (true, (shuttleState 19)) := by
  decide

/-- Shuttle cycle 20 of 25, evaluated on the code. -/
theorem shuttleSeg19 : playChecked (shuttleState 19) cycleMoves = (true, (shuttleState 20)) := by
  decide

/-- Shuttle cycle 21 of 25, evaluated on the code. -/
theorem shuttleSeg20 : playChecked (shuttleState 20) cycleMoves = (true, (shuttleState 21)) := by
  decide

/-- Shuttle cycle 22 of 25, evaluated on the code. -/
theorem shuttleSeg21 : playChecked (shuttleState 21) cycleMoves = (true, (shuttleState 22)) := by
  decide

/-- Shuttle cycle 23 of 25, evaluated on the code. -/
theorem shuttleSeg22 : playChecked (shuttleState 22) cycleMoves = (true, (shuttleState 23)) := by
  decide

/-- Shuttle cycle 24 of 25, evaluated on the code. -/
theorem shuttleSeg23 : playChecked (shuttleState 23) cycleMoves = (true, (shuttleState 24)) := by
  decide

/-- Shuttle cycle 25 of 25, evaluated on the code. -/
theorem shuttleSeg24 : playChecked (shuttleState 24) cycleMoves = (true, s100def) := by
  decide

/-- Folding `playChecked`'s step from any flag value factors into the flag
and a run started from `true`. -/
theorem playChecked_flag (l : List (Int × Int × Int × Int)) (b : Bool) (s : GameState) :
    l.foldl (fun acc m =>
      let r := makeMove acc.2 m.1 m.2.1 m.2.2.1 m.2.2.2
      (acc.1 && r.1, r.2)) (b, s) = (b && (playChecked s l).1, (playChecked s l).2) := by
  induction l generalizing b s with
  | nil => simp [playChecked]
  | cons m rest ih =>
    unfold playChecked
    simp only [List.foldl_cons]
    rw [ih, ih]
    simp [Bool.and_assoc]

/-- A fully successful prefix composes with the rest of a move list. -/
theorem playChecked_seg (s s2 : GameState) (c rest : List (Int × Int × Int × Int))
    (h : playChecked s c = (true, s2)) :
    playChecked s (c ++ rest) = playChecked s2 rest := by
  unfold playChecked at h ⊢
  rw [List.foldl_append, h, playChecked_flag]

/-- Every ply of the 100-move knight shuttle from `classicalStart`
succeeds and reaches `s100def`: a reachable position with `gameOver`
already `true` and the fifty-move draw stored. -/
theorem shuttle_run : playChecked classicalStart shuttleMoves = (true, s100def) := by
  show playChecked classicalStart ((List.replicate 25 cycleMoves).flatten) = _
  rw [show (List.replicate 25 cycleMoves).flatten = cycleMoves ++ (List.replicate 24 cycleMoves).flatten from rfl,
      playChecked_seg _ _ _ _ shuttleSeg0]
  rw [show (List.replicate 24 cycleMoves).flatten = cycleMoves ++ (List.replicate 23 cycleMoves).flatten from rfl,
      playChecked_seg _ _ _ _ shuttleSeg1]
  rw [show (List.replicate 23 cycleMoves).flatten = cycleMoves ++ (List.replicate 22 cycleMoves).flatten from rfl,
      playChecked_seg _ _ _ _ shuttleSeg2]
  rw [show (List.replicate 22 cycleMoves).flatten = cycleMoves ++ (List.replicate 21 cycleMoves).flatten from rfl,
      playChecked_seg _ _ _ _ shuttleSeg3]
  rw [show (List.replicate 21 cycleMoves).flatten = cycleMoves ++ (List.replicate 20 cycleMoves).flatten from rfl,
      playChecked_seg _ _ _ _ shuttleSeg4]
  rw [show (List.replicate 20 cycleMoves).flatten = cycleMoves ++ (List.replicate 19 cycleMoves).flatten from rfl,
      playChecked_seg _ _ _ _ shuttleSeg5]
  rw [show (List.replicate 19 cycleMoves).flatten = cycleMoves ++ (List.replicate 18 cycleMoves).flatten from rfl,
      playChecked_seg _ _ _ _ shuttleSeg6]
  rw [show (List.replicate 18 cycleMoves).flatten = cycleMoves ++ (List.replicate 17 cycleMoves).flatten from rfl,
      playChecked_seg _ _ _ _ shuttleSeg7]
  rw [show (List.replicate 17 cycleMoves).flatten = cycleMoves ++ (List.replicate 16 cycleMoves).flatten from rfl,
      playChecked_seg _ _ _ _ shuttleSeg8]
  rw [show (List.replicate 16 cycleMoves).flatten = cycleMoves ++ (List.replicate 15 cycleMoves).flatten from rfl,
      playChecked_seg _ _ _ _ shuttleSeg9]
  rw [show (List.replicate 15 cycleMoves).flatten = cycleMoves ++ (List.replicate 14 cycleMoves).flatten from rfl,
      playChecked_seg _ _ _ _ shuttleSeg10]
  rw [show (List.replicate 14 cycleMoves).flatten = cycleMoves ++ (List.replicate 13 cycleMoves).flatten from rfl,
      playChecked_seg _ _ _ _ shuttleSeg11]
  rw [show (List.replicate 13 cycleMoves).flatten = cycleMoves ++ (List.replicate 12 cycleMoves).flatten from rfl,
      playChecked_seg _ _ _ _ shuttleSeg12]
  rw [show (List.replicate 12 cycleMoves).flatten = cycleMoves ++ (List.replicate 11 cycleMoves).flatten from rfl,
      playChecked_seg _ _ _ _ shuttleSeg13]
  rw [show (List.replicate 11 cycleMoves).flatten = cycleMoves ++ (List.replicate 10 cycleMoves).flatten from rfl,
      playChecked_seg _ _ _ _ shuttleSeg14]
  rw [show (List.replicate 10 cycleMoves).flatten = cycleMoves ++ (List.replicate 9 cycleMoves).flatten from rfl,
      playChecked_seg _ _ _ _ shuttleSeg15]
  rw [show (List.replicate 9 cycleMoves).flatten = cycleMoves ++ (List.replicate 8 cycleMoves).flatten from rfl,
      playChecked_seg _ _ _ _ shuttleSeg16]
  rw [show (List.replicate 8 cycleMoves).flatten = cycleMoves ++ (List.replicate 7 cycleMoves).flatten from rfl,
      playChecked_seg _ _ _ _ shuttleSeg17]
  rw [show (List.replicate 7 cycleMoves).flatten = cycleMoves ++ (List.replicate 6 cycleMoves).flatten from rfl,
      playChecked_seg _ _ _ _ shuttleSeg18]
  rw [show (List.replicate 6 cycleMoves).flatten = cycleMoves ++ (List.replicate 5 cycleMoves).flatten from rfl,
      playChecked_seg _ _ _ _ shuttleSeg19]
  rw [show (List.replicate 5 cycleMoves).flatten = cycleMoves ++ (List.replicate 4 cycleMoves).flatten from rfl,
      playChecked_seg _ _ _ _ shuttleSeg20]
  rw [show (List.replicate 4 cycleMoves).flatten = cycleMoves ++ (List.replicate 3 cycleMoves).flatten from rfl,
      playChecked_seg _ _ _ _ shuttleSeg21]
  rw [show (List.replicate 3 cycleMoves).flatten = cycleMoves ++ (List.replicate 2 cycleMoves).flatten from rfl,
      playChecked_seg _ _ _ _ shuttleSeg22]
  rw [show (List.replicate 2 cycleMoves).flatten = cycleMoves ++ (List.replicate 1 cycleMoves).flatten from rfl,
      playChecked_seg _ _ _ _ shuttleSeg23]
  rw [show (List.replicate 1 cycleMoves).flatten = cycleMoves ++ (List.replicate 0 cycleMoves).flatten from rfl,
      playChecked_seg _ _ _ _ shuttleSeg24]
  rfl

/-- C10: `makeMove` never consults the `gameOver` flag.  The position
`s100def` is reachable from `classicalStart` by 100 successful `makeMove`
calls (the knight shuttle), has `gameOver = true` with the fifty-move-rule
result stored, and White still has legal moves; a subsequent `makeMove`
(51.f3) returns `true` and mutates the position (the side to move flips),
and playing on with 51...e5 52.g4 Qh4# succeeds throughout, after which
the re-run terminal evaluation has overwritten the stored `gameResult`
with `"Black wins"`. -/
theorem c10_game_over_not_consulted :
    playChecked classicalStart shuttleMoves = (true, s100def) ∧
    s100def.gameOver = true ∧
    s100def.gameResult = some "Draw by fifty-move rule" ∧
    s100def.halfMoveClock = 100 ∧
    s100def.currentPlayer = Color.white ∧
    (makeMove s100def 6 5 5 5).1 = true ∧
    (makeMove s100def 6 5 5 5).2.currentPlayer = Color.black ∧
    (makeMove s100def 6 5 5 5).2.gameOver = true ∧
    (makeMove s100def 6 5 5 5).2.gameResult = some "Draw by fifty-move rule" ∧
    (playChecked s100def c10Finish).1 = true ∧
    (playChecked s100def c10Finish).2.gameOver = true ∧
    (playChecked s100def c10Finish).2.gameResult = some "Black wins" := by
  refine ⟨shuttle_run, rfl, rfl, rfl, rfl, ?_, ?_, ?_, ?_, ?_, ?_, ?_⟩ <;> decide

/-! ## Helper lemmas about `checkGameEnd`, `applyMove` and `makeMove` -/

theorem checkGameEnd_board (s : GameState) : (checkGameEnd s).board = s.board := by
  unfold checkGameEnd; split_ifs <;> rfl

theorem checkGameEnd_currentPlayer (s : GameState) :
    (checkGameEnd s).currentPlayer = s.currentPlayer := by
  unfold checkGameEnd; split_ifs <;> rfl

theorem checkGameEnd_castlingRights (s : GameState) :
    (checkGameEnd s).castlingRights = s.castlingRights := by
  unfold checkGameEnd; split_ifs <;> rfl

theorem checkGameEnd_enPassantTarget (s : GameState) :
    (checkGameEnd s).enPassantTarget = s.enPassantTarget := by
  unfold checkGameEnd; split_ifs <;> rfl

theorem checkGameEnd_halfMoveClock (s : GameState) :
    (checkGameEnd s).halfMoveClock = s.halfMoveClock := by
  unfold checkGameEnd; split_ifs <;> rfl

theorem applyMove_enPassant (s : GameState) (p : Piece) (fR fC tR tC : Int) :
    (applyMove s p fR fC tR tC).enPassantTarget = nextEnPassant p fR fC tR := rfl

theorem applyMove_currentPlayer (s : GameState) (p : Piece) (fR fC tR tC : Int) :
    (applyMove s p fR fC tR tC).currentPlayer = s.currentPlayer.opposite := rfl

/-- Successful `makeMove` decomposed: the source piece exists, belongs to
the side to move, the target is among its valid moves, and the final state
is `checkGameEnd` of the applied move. -/
theorem makeMove_true_elim (s : GameState) (fR fC tR tC : Int) (s' : GameState)
    (h : makeMove s fR fC tR tC = (true, s')) :
    ∃ p, boardGet s.board fR fC = some p ∧ p.color = s.currentPlayer ∧
      (tR, tC) ∈ getValidMovesS s fR fC ∧
      s' = checkGameEnd (applyMove s p fR fC tR tC) := by
  unfold makeMove at h
  cases hb : boardGet s.board fR fC with
  | none => rw [hb] at h; simp at h
  | some p =>
    rw [hb] at h
    dsimp only at h
    by_cases hc : p.color = s.currentPlayer
    · by_cases hv : (tR, tC) ∈ getValidMovesS s fR fC
      · rw [if_neg (not_not_intro hc), if_pos hv] at h
        simp only [Prod.mk.injEq, true_and] at h
        exact ⟨p, rfl, hc, hv, h.symm⟩
      · rw [if_neg (not_not_intro hc), if_neg hv] at h
        simp at h
    · rw [if_pos hc] at h
      simp at h

/-! ## Claim C6 -/

/-- C6: `makeMove` returns `false` and leaves the whole position — board,
side to move, castling rights, en passant target, clocks, history, game
flags (all packaged in the unchanged `GameState`) — exactly when the
source square is empty, holds a piece of the wrong color, or the target is
not among `getValidMoves`; it mutates the state only when it returns
`true`.  The row bounds keep the statement inside the coordinate range
where the JS method itself does not throw on indexing. -/
theorem c6_illegal_move_rejected_unchanged (s : GameState) (fR fC tR tC : Int)
    (h1 : 0 ≤ fR) (h2 : fR < 8) :
    (makeMove s fR fC tR tC = (false, s) ↔
      (boardGet s.board fR fC = none ∨
       (∃ p, boardGet s.board fR fC = some p ∧ p.color ≠ s.currentPlayer) ∨
       (tR, tC) ∉ getValidMovesS s fR fC)) ∧
    ((makeMove s fR fC tR tC).1 = false → (makeMove s fR fC tR tC).2 = s) := by
  unfold makeMove
  cases hb : boardGet s.board fR fC with
  | none => simp
  | some p =>
    dsimp only
    by_cases hc : p.color = s.currentPlayer
    · by_cases hv : (tR, tC) ∈ getValidMovesS s fR fC
      · simp [hc, hv]
      · simp [hc, hv]
    · simp [hc]

/-! ## Claim C9 -/

/-- C9: after every successful `makeMove`, the en-passant target is set
iff the move was a two-square pawn advance, and in that case it is the
passed-over square `((fromRow + toRow)/2, fromCol)`.  In particular any
target set by one ply is replaced (by a new target or by `none`) by the
next applied move, so a target lives for exactly one ply. -/
theorem c9_en_passant_lifecycle (s : GameState) (fR fC tR tC : Int) (s' : GameState)
    (h : makeMove s fR fC tR tC = (true, s')) :
    (s'.enPassantTarget ≠ none ↔
      (∃ p, boardGet s.board fR fC = some p ∧ p.type = PieceType.pawn ∧
        (tR - fR).natAbs = 2)) ∧
    (∀ p, boardGet s.board fR fC = some p → p.type = PieceType.pawn →
      (tR - fR).natAbs = 2 → s'.enPassantTarget = some ((fR + tR) / 2, fC)) := by
  obtain ⟨p, hb, hc, hv, hs'⟩ := makeMove_true_elim s fR fC tR tC s' h
  have hep : s'.enPassantTarget = nextEnPassant p fR fC tR := by
    rw [hs', checkGameEnd_enPassantTarget, applyMove_enPassant]
  constructor
  · rw [hep]
    unfold nextEnPassant
    by_cases hp : p.type = PieceType.pawn
    · by_cases h2 : (tR - fR).natAbs = 2
      · simp [hp, h2, hb]
      · simp [hp, h2, hb]
    · simp [hp, hb]
  · intro q hq hqt hq2
    rw [hb] at hq
    injection hq with hq
    subst hq
    rw [hep]
    unfold nextEnPassant
    rw [if_pos hqt, if_pos hq2]

/-! ## Claim C8 -/

/-- Checkmate and stalemate are mutually exclusive by construction: the
first requires the king in check, the second requires it not in check. -/
theorem mate_stale_exclusive (b : Board) (cur : Color) (rights : CastlingRights)
    (ep : Option (Int × Int)) (c : Color) :
    ¬(isInCheckmate b cur rights ep c = true ∧ isInStalemate b cur rights ep c = true) := by
  unfold isInCheckmate isInStalemate
  cases isInCheck b c <;> simp

/-- The four branches of `checkGameEnd`, characterized. -/
theorem checkGameEnd_chars (m : GameState) :
    (isInCheckmateS m m.currentPlayer = true →
      (checkGameEnd m).gameOver = true ∧
      (checkGameEnd m).gameResult =
        some (if m.currentPlayer = Color.white then "Black wins" else "White wins")) ∧
    (isInCheckmateS m m.currentPlayer = false → isInStalemateS m m.currentPlayer = true →
      (checkGameEnd m).gameOver = true ∧ (checkGameEnd m).gameResult = some "Stalemate") ∧
    (isInCheckmateS m m.currentPlayer = false → isInStalemateS m m.currentPlayer = false →
      100 ≤ m.halfMoveClock →
      (checkGameEnd m).gameOver = true ∧
      (checkGameEnd m).gameResult = some "Draw by fifty-move rule") ∧
    (isInCheckmateS m m.currentPlayer = false → isInStalemateS m m.currentPlayer = false →
      m.halfMoveClock < 100 →
      (checkGameEnd m).gameOver = m.gameOver ∧ (checkGameEnd m).gameResult = m.gameResult) := by
  unfold checkGameEnd
  split_ifs with hc1 hc2 hc3 <;>
    refine ⟨?_, ?_, ?_, ?_⟩ <;> intros <;> simp_all <;> omega

/-- C8: immediately after every successful `makeMove`, the terminal
evaluation has run for the new side to move in the order checkmate →
stalemate → fifty-move draw (`halfMoveClock ≥ 100`): a checkmate names the
opponent of the mated side (the new side to move) as winner, the three
outcomes are mutually exclusive, exactly one result is stored, and when
none applies the game flags are left as they were. -/
theorem c8_game_end_evaluation (s : GameState) (fR fC tR tC : Int) (s' : GameState)
    (h : makeMove s fR fC tR tC = (true, s')) :
    ¬(isInCheckmateS s' s'.currentPlayer = true ∧ isInStalemateS s' s'.currentPlayer = true) ∧
    (isInCheckmateS s' s'.currentPlayer = true →
      s'.gameOver = true ∧
      s'.gameResult =
        some (if s'.currentPlayer = Color.white then "Black wins" else "White wins")) ∧
    (isInCheckmateS s' s'.currentPlayer = false → isInStalemateS s' s'.currentPlayer = true →
      s'.gameOver = true ∧ s'.gameResult = some "Stalemate") ∧
    (isInCheckmateS s' s'.currentPlayer = false → isInStalemateS s' s'.currentPlayer = false →
      100 ≤ s'.halfMoveClock →
      s'.gameOver = true ∧ s'.gameResult = some "Draw by fifty-move rule") ∧
    (isInCheckmateS s' s'.currentPlayer = false → isInStalemateS s' s'.currentPlayer = false →
      s'.halfMoveClock < 100 →
      s'.gameOver = s.gameOver ∧ s'.gameResult = s.gameResult) := by
  obtain ⟨p, hb, hc, hv, hs'⟩ := makeMove_true_elim s fR fC tR tC s' h
  have hmate : isInCheckmateS s' s'.currentPlayer =
      isInCheckmateS (applyMove s p fR fC tR tC) (applyMove s p fR fC tR tC).currentPlayer := by
    rw [hs']
    unfold isInCheckmateS
    rw [checkGameEnd_board, checkGameEnd_currentPlayer, checkGameEnd_castlingRights,
      checkGameEnd_enPassantTarget]
  have hstale : isInStalemateS s' s'.currentPlayer =
      isInStalemateS (applyMove s p fR fC tR tC) (applyMove s p fR fC tR tC).currentPlayer := by
    rw [hs']
    unfold isInStalemateS
    rw [checkGameEnd_board, checkGameEnd_currentPlayer, checkGameEnd_castlingRights,
      checkGameEnd_enPassantTarget]
  have hhmc : s'.halfMoveClock = (applyMove s p fR fC tR tC).halfMoveClock := by
    rw [hs', checkGameEnd_halfMoveClock]
  obtain ⟨k1, k2, k3, k4⟩ := checkGameEnd_chars (applyMove s p fR fC tR tC)
  refine ⟨?_, ?_, ?_, ?_, ?_⟩
  · rw [hmate, hstale]
    exact mate_stale_exclusive (applyMove s p fR fC tR tC).board
      (applyMove s p fR fC tR tC).currentPlayer (applyMove s p fR fC tR tC).castlingRights
      (applyMove s p fR fC tR tC).enPassantTarget (applyMove s p fR fC tR tC).currentPlayer
  · intro hm
    rw [hmate] at hm
    rw [hs', checkGameEnd_currentPlayer]
    exact k1 hm
  · intro hm hst
    rw [hmate] at hm
    rw [hstale] at hst
    rw [hs']
    exact k2 hm hst
  · intro hm hst hf
    rw [hmate] at hm
    rw [hstale] at hst
    rw [hhmc] at hf
    rw [hs']
    exact k3 hm hst hf
  · intro hm hst hf
    rw [hmate] at hm
    rw [hstale] at hst
    rw [hhmc] at hf
    rw [hs']
    exact k4 hm hst hf

/-- Witness for C8 at the concrete rook move g2–g3 in `rookEndgameState`. -/
theorem c8_witness :
    ¬(isInCheckmateS c8After c8After.currentPlayer = true ∧
      isInStalemateS c8After c8After.currentPlayer = true) ∧
    (isInCheckmateS c8After c8After.currentPlayer = true →
      c8After.gameOver = true ∧
      c8After.gameResult =
        some (if c8After.currentPlayer = Color.white then "Black wins" else "White wins")) ∧
    (isInCheckmateS c8After c8After.currentPlayer = false →
      isInStalemateS c8After c8After.currentPlayer = true →
      c8After.gameOver = true ∧ c8After.gameResult = some "Stalemate") ∧
    (isInCheckmateS c8After c8After.currentPlayer = false →
      isInStalemateS c8After c8After.currentPlayer = false →
      100 ≤ c8After.halfMoveClock →
      c8After.gameOver = true ∧ c8After.gameResult = some "Draw by fifty-move rule") ∧
    (isInCheckmateS c8After c8After.currentPlayer = false →
      isInStalemateS c8After c8After.currentPlayer = false →
      c8After.halfMoveClock < 100 →
      c8After.gameOver = rookEndgameState.gameOver ∧
      c8After.gameResult = rookEndgameState.gameResult) :=
  c8_game_end_evaluation rookEndgameState 6 6 5 6 c8After (by decide)

/-- Witness for C9 at the concrete pawn double step d2–d4. -/
theorem c9_witness :
    (c9After.enPassantTarget ≠ none ↔
      (∃ p, boardGet pawnStartState.board 6 3 = some p ∧ p.type = PieceType.pawn ∧
        ((4 : Int) - 6).natAbs = 2)) ∧
    (∀ p, boardGet pawnStartState.board 6 3 = some p → p.type = PieceType.pawn →
      ((4 : Int) - 6).natAbs = 2 → c9After.enPassantTarget = some (((6 : Int) + 4) / 2, 3)) :=
  c9_en_passant_lifecycle pawnStartState 6 3 4 3 c9After (by decide)

/-- Witness for C6: moving from the empty square a8 on the bare board is
rejected with the state unchanged. -/
theorem c6_witness : makeMove bareState 0 0 3 3 = (false, bareState) :=
  (c6_illegal_move_rejected_unchanged bareState 0 0 3 3 (by decide) (by decide)).1.mpr
    (Or.inl (by decide))

/-! ## Claim C2 (amended theorem) -/

/-- Every normal (non-castling) king move is one of the 8 unit offsets. -/
theorem kingNormalMoves_shape (b : Board) (row col : Int) (p : Piece) (m : Int × Int)
    (hm : m ∈ kingNormalMoves b row col p) :
    ∃ d ∈ kingDirections, m = (row + d.1, col + d.2) := by
  unfold kingNormalMoves at hm
  rw [List.mem_filterMap] at hm
  obtain ⟨d, hd, hfd⟩ := hm
  refine ⟨d, hd, ?_⟩
  by_cases hW : isWithinBoard (row + d.1) (col + d.2)
  · rw [if_pos hW] at hfd
    cases hb : boardGet b (row + d.1) (col + d.2) with
    | none =>
      rw [hb] at hfd
      dsimp only at hfd
      split_ifs at hfd
      exact (Option.some.inj hfd).symm
    | some t =>
      rw [hb] at hfd
      dsimp only at hfd
      split_ifs at hfd
      exact (Option.some.inj hfd).symm
  · rw [if_neg hW] at hfd
    cases hfd

/-- C2 as amended: a castling move appears in the king's move set only
under the code's conditions — the rights flag for that side is set, the
king is not currently in check, a rook exists on that side of the king on
the castling rank, and every file strictly between the king's file and
that rook's file is empty AND not attacked by the opponent.  (The original
claim instead required the king's path including its destination to be
unattacked; that is false on the code — see the counterexample.) -/
theorem c2_castle_only_under_code_conditions (b : Board) (rights : CastlingRights)
    (row col : Int) (p : Piece) :
    ((castleRank p.color, col + 2) ∈ getKingMoves b rights row col p →
      (rights.forColor p.color).kingSide = true ∧
      isInCheck b p.color = false ∧
      (findCastlingRooks b (castleRank p.color) p.color col).1 ≠ -1 ∧
      castlePathClear b (castleRank p.color) p.color
        (betweenCols col (findCastlingRooks b (castleRank p.color) p.color col).1) = true) ∧
    ((castleRank p.color, col - 2) ∈ getKingMoves b rights row col p →
      (rights.forColor p.color).queenSide = true ∧
      isInCheck b p.color = false ∧
      (findCastlingRooks b (castleRank p.color) p.color col).2 ≠ -1 ∧
      castlePathClear b (castleRank p.color) p.color
        (betweenCols (findCastlingRooks b (castleRank p.color) p.color col).2 col) = true) := by
  constructor
  · intro hm
    unfold getKingMoves at hm
    rw [List.mem_append] at hm
    rcases hm with hm | hm
    · exfalso
      obtain ⟨d, hd, heq⟩ := kingNormalMoves_shape b row col p _ hm
      have h2 := congrArg Prod.snd heq
      simp only [kingDirections, List.mem_cons, List.not_mem_nil, or_false] at hd
      rcases hd with rfl | rfl | rfl | rfl | rfl | rfl | rfl | rfl <;> dsimp at h2 <;> omega
    · unfold kingCastleMoves at hm
      by_cases hchk : isInCheck b p.color
      · rw [if_pos hchk] at hm
        cases hm
      · rw [if_neg hchk] at hm
        simp only [Bool.not_eq_true] at hchk
        rw [List.mem_append] at hm
        rcases hm with hm | hm
        · unfold kingSideCastle at hm
          split_ifs at hm with hg
          · exact ⟨hg.1, hchk, hg.2.1, hg.2.2⟩
          · cases hm
        · exfalso
          unfold queenSideCastle at hm
          split_ifs at hm
          · have h2 := congrArg Prod.snd (List.mem_singleton.mp hm)
            dsimp at h2
            omega
          · cases hm
  · intro hm
    unfold getKingMoves at hm
    rw [List.mem_append] at hm
    rcases hm with hm | hm
    · exfalso
      obtain ⟨d, hd, heq⟩ := kingNormalMoves_shape b row col p _ hm
      have h2 := congrArg Prod.snd heq
      simp only [kingDirections, List.mem_cons, List.not_mem_nil, or_false] at hd
      rcases hd with rfl | rfl | rfl | rfl | rfl | rfl | rfl | rfl <;> dsimp at h2 <;> omega
    · unfold kingCastleMoves at hm
      by_cases hchk : isInCheck b p.color
      · rw [if_pos hchk] at hm
        cases hm
      · rw [if_neg hchk] at hm
        simp only [Bool.not_eq_true] at hchk
        rw [List.mem_append] at hm
        rcases hm with hm | hm
        · exfalso
          unfold kingSideCastle at hm
          split_ifs at hm
          · have h2 := congrArg Prod.snd (List.mem_singleton.mp hm)
            dsimp at h2
            omega
          · cases hm
        · unfold queenSideCastle at hm
          split_ifs at hm with hg
          · exact ⟨hg.1, hchk, hg.2.1, hg.2.2⟩
          · cases hm

/-- Witness for the amended C2 at `castleReadyState` (white king e1, rook
h1): the push f1+2 = g1 is present and the code's conditions hold. -/
theorem c2_witness :
    (castleReadyState.castlingRights.forColor Color.white).kingSide = true ∧
    isInCheck castleReadyState.board Color.white = false ∧
    (findCastlingRooks castleReadyState.board (castleRank Color.white) Color.white 4).1 ≠ -1 ∧
    castlePathClear castleReadyState.board (castleRank Color.white) Color.white
      (betweenCols 4
        (findCastlingRooks castleReadyState.board (castleRank Color.white) Color.white 4).1) =
      true :=
  (c2_castle_only_under_code_conditions castleReadyState.board castleReadyState.castlingRights
    7 4 ⟨PieceType.king, Color.white⟩).1 (by decide)

/-! ## Claim C5 -/

set_option maxRecDepth 10000 in
set_option maxHeartbeats 8000000 in
/-- Backrank requirements for every draw with the dark-bishop draw 0
(4 × 6 × 5 × 4 = 480 cases). -/
theorem backrankOk_draws0 :
    (List.range 4).all (fun b => (List.range 6).all (fun c => (List.range 5).all (fun d =>
      (List.range 4).all (fun e =>
        backrankOk (generateChess960Position 0 b c d e))))) = true := by
  decide

set_option maxRecDepth 10000 in
set_option maxHeartbeats 8000000 in
/-- Backrank requirements for every draw with the dark-bishop draw 1. -/
theorem backrankOk_draws1 :
    (List.range 4).all (fun b => (List.range 6).all (fun c => (List.range 5).all (fun d =>
      (List.range 4).all (fun e =>
        backrankOk (generateChess960Position 1 b c d e))))) = true := by
  decide

set_option maxRecDepth 10000 in
set_option maxHeartbeats 8000000 in
/-- Backrank requirements for every draw with the dark-bishop draw 2. -/
theorem backrankOk_draws2 :
    (List.range 4).all (fun b => (List.range 6).all (fun c => (List.range 5).all (fun d =>
      (List.range 4).all (fun e =>
        backrankOk (generateChess960Position 2 b c d e))))) = true := by
  decide

set_option maxRecDepth 10000 in
set_option maxHeartbeats 8000000 in
/-- Backrank requirements for every draw with the dark-bishop draw 3. -/
theorem backrankOk_draws3 :
    (List.range 4).all (fun b => (List.range 6).all (fun c => (List.range 5).all (fun d =>
      (List.range 4).all (fun e =>
        backrankOk (generateChess960Position 3 b c d e))))) = true := by
  decide

/-- Exhaustive check of the backrank requirements over every possible
combination of random draws (4 × 4 × 6 × 5 × 4 = 1920 cases). -/
theorem backrankOk_all_draws (a b c d e : Nat)
    (ha : a < 4) (hb : b < 4) (hc : c < 6) (hd : d < 5) (he : e < 4) :
    backrankOk (generateChess960Position a b c d e) = true := by
  have ha4 : a = 0 ∨ a = 1 ∨ a = 2 ∨ a = 3 := by omega
  rcases ha4 with rfl | rfl | rfl | rfl
  · have h := backrankOk_draws0
    simp only [List.all_eq_true, List.mem_range] at h
    exact h b hb c hc d hd e he
  · have h := backrankOk_draws1
    simp only [List.all_eq_true, List.mem_range] at h
    exact h b hb c hc d hd e he
  · have h := backrankOk_draws2
    simp only [List.all_eq_true, List.mem_range] at h
    exact h b hb c hc d hd e he
  · have h := backrankOk_draws3
    simp only [List.all_eq_true, List.mem_range] at h
    exact h b hb c hc d hd e he

/-- C5: every backrank returned by `generateChess960Position` has exactly
2 rooks, 2 knights, 2 bishops, 1 queen, 1 king, the bishops on files of
opposite parity and the king's file strictly between the rooks' files; and
`initChess960` deals that backrank identically to both colors (rows 7 and
0) with a full rank of pawns each on board rows 6 and 1 (algebraic ranks 2
and 7).  The hypotheses bound each random draw by the length of the list
it indexes, exactly the range of `Math.floor(Math.random() * length)`. -/
theorem c5_start_position_properties (r1 r2 r3 r4 r5 : Nat)
    (h1 : r1 < 4) (h2 : r2 < 4) (h3 : r3 < 6) (h4 : r4 < 5) (h5 : r5 < 4) :
    backrankCounts (generateChess960Position r1 r2 r3 r4 r5) ∧
    bishopsOppositeParity (generateChess960Position r1 r2 r3 r4 r5) = true ∧
    kingBetweenRooks (generateChess960Position r1 r2 r3 r4 r5) = true ∧
    (∀ i : Fin 8,
      boardGet (initChess960 r1 r2 r3 r4 r5).board 7 ((i : Nat) : Int) =
        ((generateChess960Position r1 r2 r3 r4 r5).getD i none).map
          (fun t => ⟨t, Color.white⟩) ∧
      boardGet (initChess960 r1 r2 r3 r4 r5).board 0 ((i : Nat) : Int) =
        ((generateChess960Position r1 r2 r3 r4 r5).getD i none).map
          (fun t => ⟨t, Color.black⟩) ∧
      boardGet (initChess960 r1 r2 r3 r4 r5).board 6 ((i : Nat) : Int) =
        some ⟨PieceType.pawn, Color.white⟩ ∧
      boardGet (initChess960 r1 r2 r3 r4 r5).board 1 ((i : Nat) : Int) =
        some ⟨PieceType.pawn, Color.black⟩) := by
  have key := backrankOk_all_draws r1 r2 r3 r4 r5 h1 h2 h3 h4 h5
  unfold backrankOk at key
  simp only [Bool.and_eq_true, beq_iff_eq] at key
  obtain ⟨⟨⟨⟨⟨⟨k1, k2⟩, k3⟩, k4⟩, k5⟩, k6⟩, k7⟩ := key
  refine ⟨⟨k1, k2, k3, k4, k5⟩, k6, k7, ?_⟩
  intro i
  fin_cases i <;> exact ⟨rfl, rfl, rfl, rfl⟩

/-- Witness for C5 at the all-zero draws (backrank B B Q N N R K R). -/
theorem c5_witness :
    backrankCounts (generateChess960Position 0 0 0 0 0) ∧
    bishopsOppositeParity (generateChess960Position 0 0 0 0 0) = true ∧
    kingBetweenRooks (generateChess960Position 0 0 0 0 0) = true ∧
    (∀ i : Fin 8,
      boardGet (initChess960 0 0 0 0 0).board 7 ((i : Nat) : Int) =
        ((generateChess960Position 0 0 0 0 0).getD i none).map
          (fun t => ⟨t, Color.white⟩) ∧
      boardGet (initChess960 0 0 0 0 0).board 0 ((i : Nat) : Int) =
        ((generateChess960Position 0 0 0 0 0).getD i none).map
          (fun t => ⟨t, Color.black⟩) ∧
      boardGet (initChess960 0 0 0 0 0).board 6 ((i : Nat) : Int) =
        some ⟨PieceType.pawn, Color.white⟩ ∧
      boardGet (initChess960 0 0 0 0 0).board 1 ((i : Nat) : Int) =
        some ⟨PieceType.pawn, Color.black⟩) :=
  c5_start_position_properties 0 0 0 0 0 (by decide) (by decide) (by decide) (by decide)
    (by decide)

/-! ## Claim C7 -/

theorem str_append_empty (s : String) : s ++ "" = s := by
  cases s with
  | mk d => exact congrArg String.mk (List.append_nil d)

theorem str_append_assoc (a b c : String) : a ++ b ++ c = a ++ (b ++ c) := by
  cases a with
  | mk da =>
    cases b with
    | mk db =>
      cases c with
      | mk dc => exact congrArg String.mk (List.append_assoc da db dc)

/-- The accumulator fold of `generateFEN`'s rank loop equals the spec-side
run-length encoding, for any starting accumulator and pending run. -/
theorem rankFEN_fold_eq (cells : List (Option Piece)) (acc : String) (k : Nat) :
    (let step := cells.foldl (fun (a : String × Nat) cell =>
        match cell with
        | none => (a.1, a.2 + 1)
        | some p => ((if a.2 > 0 then a.1 ++ toString a.2 else a.1) ++ pieceFenChar p, 0))
      (acc, k)
     if step.2 > 0 then step.1 ++ toString step.2 else step.1) = acc ++ fenRunAux k cells := by
  induction cells generalizing acc k with
  | nil =>
    dsimp [fenRunAux]
    by_cases hk : k > 0
    · rw [if_pos hk, if_pos hk]
    · rw [if_neg hk, if_neg hk, str_append_empty]
  | cons cell rest ih =>
    cases cell with
    | none => exact (ih acc (k + 1)).trans rfl
    | some p =>
      refine (ih _ 0).trans ?_
      show (if k > 0 then acc ++ toString k else acc) ++ pieceFenChar p ++ fenRunAux 0 rest = _
      dsimp [fenRunAux]
      by_cases hk : k > 0
      · rw [if_pos hk, if_pos hk, str_append_assoc, str_append_assoc, str_append_assoc]
      · rw [if_neg hk, if_neg hk, str_append_assoc]
        rfl

/-- The rank encoder of `generateFEN` agrees with the spec-side
run-length encoding of the rank's cells. -/
theorem rankFEN_eq_spec (b : Board) (rank : Int) : rankFEN b rank = rankFENSpec b rank := by
  unfold rankFEN rankFENSpec rankCells
  have h := rankFEN_fold_eq ((List.range 8).map (fun file => boardGet b rank (file : Int))) "" 0
  rw [List.foldl_map] at h
  exact h.trans rfl

/-- C7 as amended: `generateFEN` is six space-separated fields — the eight
board rows 0–7 (algebraic ranks 8 down to 1, Black's back rank first)
'/'-separated and run-length encoded with uppercase letters for White, the
side to move as `w`/`b`, the remaining-rights subset of `KQkq` or `-`, the
en-passant target as the JS array stringification `"row,col"` or `-` (the
original claim said algebraic notation; see the counterexample), then the
half-move clock and the full-move number. -/
theorem c7_fen_fields (s : GameState) :
    generateFEN s =
      rankFENSpec s.board 0 ++ "/" ++ rankFENSpec s.board 1 ++ "/" ++
      rankFENSpec s.board 2 ++ "/" ++ rankFENSpec s.board 3 ++ "/" ++
      rankFENSpec s.board 4 ++ "/" ++ rankFENSpec s.board 5 ++ "/" ++
      rankFENSpec s.board 6 ++ "/" ++ rankFENSpec s.board 7 ++
      " " ++ activeColorField s ++ " " ++ castlingField s ++ " " ++ enPassantField s ++
      " " ++ toString s.halfMoveClock ++ " " ++ toString s.fullMoveNumber := by
  unfold generateFEN activeColorField castlingField enPassantField
  dsimp only [List.range, List.range.loop, List.foldl]
  simp only [rankFEN_eq_spec]
  norm_num [str_append_assoc]

/-- C7 as stated is false at `epFenState`: the fourth space-separated
field of the generated FEN is the array stringification `"5,4"` — not `-`
and not a file letter followed by a rank digit as the claim requires. -/
theorem c7_counterexample :
    generateFEN epFenState = "8/8/8/8/8/8/8/8 w KQkq 5,4 0 1" ∧
    enPassantField epFenState = "5,4" ∧
    isAlgebraicSquare "5,4" = false ∧ "5,4" ≠ "-" := by
  decide

end Chess960
